import Mathlib

/-!
Shallow embedding of the 3D packing core of the truck-3d repository
(source: src/streamlit_app.py) and verification of the spec's claims
about it.  Real-number quantities of the source are modelled as `ℚ`.
-/

namespace Truck3D

/-- One inventory item, as assembled by the app's input section:
weight (kg) and length/width/height (m). -/
structure Parcel where
  weight : ℚ
  length : ℚ
  width : ℚ
  height : ℚ
  deriving DecidableEq

/-- One entry of the layout list returned by the packing engine:
the dict `{id, x, y, z, length, width, height}` built in
`generate_mock_3d_layout`. -/
structure Placement where
  id : ℕ
  x : ℚ
  y : ℚ
  z : ℚ
  length : ℚ
  width : ℚ
  height : ℚ
  deriving DecidableEq

/-- The local `spacing = 0.1` of `generate_mock_3d_layout`. -/
def spacing : ℚ := 0.1

/-- The loop of `generate_mock_3d_layout`, as structural recursion over the
remaining parcels.  `idx` is the enumerate index, `xc yc zc` the three
cursors.  Each iteration: (1) if `x_cursor + l > max_x`, reset `x_cursor`
to 0 and advance `y_cursor` by `w + spacing`; (2) if the (possibly
updated) `y_cursor + w > max_y`, reset `y_cursor` to 0 and advance
`z_cursor` by `h + spacing`; (3) if the (possibly updated)
`z_cursor + h > max_z`, `break`; otherwise append the placement and
advance `x_cursor` by `l + spacing`. -/
def layoutAux (maxX maxY maxZ : ℚ) : List Parcel → ℕ → ℚ → ℚ → ℚ → List Placement
  | [], _, _, _, _ => []
  | p :: rest, idx, xc, yc, zc =>
    let xc1 : ℚ := if xc + p.length > maxX then 0 else xc
    let yc1 : ℚ := if xc + p.length > maxX then yc + p.width + spacing else yc
    let yc2 : ℚ := if yc1 + p.width > maxY then 0 else yc1
    let zc1 : ℚ := if yc1 + p.width > maxY then zc + p.height + spacing else zc
    if zc1 + p.height > maxZ then []
    else
      ⟨idx + 1, xc1, yc2, zc1, p.length, p.width, p.height⟩ ::
        layoutAux maxX maxY maxZ rest (idx + 1) (xc1 + p.length + spacing) yc2 zc1

/-- `generate_mock_3d_layout(parcel_data, truck_dims)` from
src/streamlit_app.py: the single function behind every selectable 3D
packing algorithm. -/
def generate_mock_3d_layout (parcel_data : List Parcel)
    (truck_dims : ℚ × ℚ × ℚ) : List Placement :=
  layoutAux truck_dims.1 truck_dims.2.1 truck_dims.2.2 parcel_data 0 0 0 0

/-- `extreme_point_packing` from the source: delegates to
`generate_mock_3d_layout`. -/
def extreme_point_packing (parcel_data : List Parcel)
    (truck_dims : ℚ × ℚ × ℚ) : List Placement :=
  generate_mock_3d_layout parcel_data truck_dims

/-- `layer_based_packing` from the source: delegates to
`generate_mock_3d_layout`. -/
def layer_based_packing (parcel_data : List Parcel)
    (truck_dims : ℚ × ℚ × ℚ) : List Placement :=
  generate_mock_3d_layout parcel_data truck_dims

/-- `skyline_3d_packing` from the source: delegates to
`generate_mock_3d_layout`. -/
def skyline_3d_packing (parcel_data : List Parcel)
    (truck_dims : ℚ × ℚ × ℚ) : List Placement :=
  generate_mock_3d_layout parcel_data truck_dims

/-- `guillotine_3d_packing` from the source: delegates to
`generate_mock_3d_layout`. -/
def guillotine_3d_packing (parcel_data : List Parcel)
    (truck_dims : ℚ × ℚ × ℚ) : List Placement :=
  generate_mock_3d_layout parcel_data truck_dims

/-- One row of the `vehicle_types` table of the source:
name, length, width, height, max weight, max volume, cost. -/
structure VehicleType where
  name : String
  maxLength : ℚ
  maxWidth : ℚ
  maxHeight : ℚ
  maxWeight : ℚ
  maxVolume : ℚ
  cost : ℚ
  deriving DecidableEq

/-- The `vehicle_types` catalog of the source, verbatim. -/
def vehicle_types : List VehicleType :=
  [⟨"Small van",         1.5, 1.2,  1.1,   360,  1.8,    100⟩,
   ⟨"Medium wheel base", 3.0, 1.2,  1.9,  1400,  3.6,    130⟩,
   ⟨"Sprinter van",      4.2, 1.2,  1.75,  950,  5.04,   135⟩,
   ⟨"luton van",         4.0, 2.0,  2.0,  1000,  8.0,    160⟩,
   ⟨"7.5T CS",           6.0, 2.88, 2.2,  2600, 17.28,   150⟩,
   ⟨"18T CS",            7.3, 2.88, 2.3,  9800, 21.024,  175⟩,
   ⟨"40ft CS",          13.5, 3.0,  3.0, 28000, 40.5,    185⟩,
   ⟨"20ft FB",           7.3, 2.4,  300, 10500, 17.52,   180⟩,
   ⟨"40ft FB",          13.5, 2.4,  300, 30000, 32.4,    190⟩,
   ⟨"40T Low Loader",   13.5, 2.4,  300, 30000, 32.4,    195⟩]

/-- The "Run 3D Packing" button handler of the source: it builds
`truck_dims` from the selected vehicle row and immediately invokes the
selected packing function on the parcel list — there is no emptiness
check or any other guard on the way. -/
def run_3d_packing (algo : List Parcel → ℚ × ℚ × ℚ → List Placement)
    (parcels : List Parcel) (truck : VehicleType) : List Placement :=
  algo parcels (truck.maxLength, truck.maxWidth, truck.maxHeight)

/-- Two placements' axis-aligned boxes `[origin, origin+extents]` have a
positive-volume intersection: their projections overlap on an interval of
positive length on all three axes. -/
def boxesOverlap (a b : Placement) : Prop :=
  max a.x b.x < min (a.x + a.length) (b.x + b.length) ∧
  max a.y b.y < min (a.y + a.width) (b.y + b.width) ∧
  max a.z b.z < min (a.z + a.height) (b.z + b.height)

instance (a b : Placement) : Decidable (boxesOverlap a b) := by
  unfold boxesOverlap; infer_instance

/-- The disjointness invariant claimed for the engine's output: the boxes
of any two distinct entries of the returned layout are interior-disjoint
(touching faces allowed). -/
def disjointLayout (parcels : List Parcel) (dims : ℚ × ℚ × ℚ) : Prop :=
  (generate_mock_3d_layout parcels dims).Pairwise fun a b => ¬ boxesOverlap a b

instance (parcels : List Parcel) (dims : ℚ × ℚ × ℚ) :
    Decidable (disjointLayout parcels dims) := by
  unfold disjointLayout; infer_instance

/-- One placement's box lies within `[0, dims]` on all three axes. -/
def placementInside (dims : ℚ × ℚ × ℚ) (pl : Placement) : Prop :=
  0 ≤ pl.x ∧ 0 ≤ pl.y ∧ 0 ≤ pl.z ∧
  pl.x + pl.length ≤ dims.1 ∧ pl.y + pl.width ≤ dims.2.1 ∧
  pl.z + pl.height ≤ dims.2.2

instance (dims : ℚ × ℚ × ℚ) (pl : Placement) :
    Decidable (placementInside dims pl) := by
  unfold placementInside; infer_instance

/-- The containment invariant claimed for the engine's output: every
returned placement lies within the container on all three axes. -/
def layoutInside (parcels : List Parcel) (dims : ℚ × ℚ × ℚ) : Prop :=
  ∀ pl ∈ generate_mock_3d_layout parcels dims, placementInside dims pl

instance (parcels : List Parcel) (dims : ℚ × ℚ × ℚ) :
    Decidable (layoutInside parcels dims) :=
  List.decidableBAll _ _

/-- Volume of a parcel, `length × width × height`. -/
def parcelVolume (p : Parcel) : ℚ :=
  p.length * p.width * p.height

/-- Modelled from the spec: the feasibility filter (§4.1) is absent from
src/streamlit_app.py (the app never checks parcels against vehicle
capacities); a parcel is feasible for a vehicle type iff weight ≤ max
weight, volume ≤ max volume and each dimension ≤ the corresponding
interior dimension. -/
def feasible (p : Parcel) (v : VehicleType) : Prop :=
  p.weight ≤ v.maxWeight ∧ parcelVolume p ≤ v.maxVolume ∧
  p.length ≤ v.maxLength ∧ p.width ≤ v.maxWidth ∧ p.height ≤ v.maxHeight

instance (p : Parcel) (v : VehicleType) : Decidable (feasible p v) := by
  unfold feasible; infer_instance

/-- Modelled from the spec: the cost-minimizing assignment solver (§4.2,
§4.3) is absent from src/streamlit_app.py (pulp is imported but never
used); for a single parcel the minimum-cost solution uses one instance of
the cheapest feasible vehicle type, so we select the first
lowest-cost feasible catalog entry. -/
def cheapestFeasible (p : Parcel) : List VehicleType → Option VehicleType
  | [] => none
  | v :: rest =>
    let best := cheapestFeasible p rest
    if feasible p v then
      match best with
      | none => some v
      | some b => if v.cost ≤ b.cost then some v else some b
    else best

/-- Modelled from the spec: the whole single-parcel optimization run —
the solver picks one instance of the cheapest feasible type (instance
count 1, total cost the type's per-use cost), then the placement engine
of the source lays the parcel out in that container. -/
def solveSingleParcel (p : Parcel) (catalog : List VehicleType) :
    Option (VehicleType × ℕ × ℚ × List Placement) :=
  (cheapestFeasible p catalog).map fun v =>
    (v, 1, v.cost,
      generate_mock_3d_layout [p] (v.maxLength, v.maxWidth, v.maxHeight))

theorem layoutAux_z_le (maxX maxY maxZ : ℚ) :
    ∀ (rest : List Parcel) (idx : ℕ) (xc yc zc : ℚ),
      ∀ pl ∈ layoutAux maxX maxY maxZ rest idx xc yc zc, pl.z + pl.height ≤ maxZ := by
  intro rest
  induction rest with
  | nil =>
    intro idx xc yc zc pl hpl
    simp [layoutAux] at hpl
  | cons p rest ih =>
    intro idx xc yc zc pl hpl
    simp only [layoutAux] at hpl
    set yc1 : ℚ := if xc + p.length > maxX then yc + p.width + spacing else yc with hyc1
    set xc1 : ℚ := if xc + p.length > maxX then 0 else xc with hxc1
    set yc2 : ℚ := if yc1 + p.width > maxY then 0 else yc1 with hyc2
    set zc1 : ℚ := if yc1 + p.width > maxY then zc + p.height + spacing else zc with hzc1
    by_cases hz : zc1 + p.height > maxZ
    · rw [if_pos hz] at hpl
      exact absurd hpl (List.not_mem_nil pl)
    · rw [if_neg hz] at hpl
      rcases List.mem_cons.1 hpl with rfl | hm
      · exact not_lt.1 hz
      · exact ih (idx + 1) (xc1 + p.length + spacing) yc2 zc1 pl hm

/-- Claim C9: for every parcel list and every truck dimension triple, every
placement returned by `generate_mock_3d_layout` satisfies
`z + height ≤ max_z` — the cursor walk tests the z bound immediately
before appending and breaks otherwise. -/
theorem C9_height_always_contained (parcels : List Parcel) (dims : ℚ × ℚ × ℚ)
    (pl : Placement) (hpl : pl ∈ generate_mock_3d_layout parcels dims) :
    pl.z + pl.height ≤ dims.2.2 :=
  layoutAux_z_le dims.1 dims.2.1 dims.2.2 parcels 0 0 0 0 pl hpl

theorem layout_unit_cube_eval :
    generate_mock_3d_layout [⟨1, 1, 1, 1⟩] (2, 2, 2) = [⟨1, 0, 0, 0, 1, 1, 1⟩] := by
  simp only [generate_mock_3d_layout, layoutAux, spacing]
  norm_num

/-- Witness for C9 at the concrete input of a unit cube in a 2×2×2
container. -/
theorem C9_height_always_contained_witness :
    (⟨1, 0, 0, 0, 1, 1, 1⟩ : Placement).z +
      (⟨1, 0, 0, 0, 1, 1, 1⟩ : Placement).height ≤ (2 : ℚ) :=
  C9_height_always_contained [⟨1, 1, 1, 1⟩] (2, 2, 2) ⟨1, 0, 0, 0, 1, 1, 1⟩
    (by rw [layout_unit_cube_eval]; exact List.mem_singleton.2 rfl)

/-- Claim C3: the four selectable packing functions are extensionally equal
aliases of `generate_mock_3d_layout`. -/
theorem C3_four_algorithms_are_aliases (parcel_data : List Parcel)
    (truck_dims : ℚ × ℚ × ℚ) :
    extreme_point_packing parcel_data truck_dims =
        generate_mock_3d_layout parcel_data truck_dims ∧
      layer_based_packing parcel_data truck_dims =
        generate_mock_3d_layout parcel_data truck_dims ∧
      skyline_3d_packing parcel_data truck_dims =
        generate_mock_3d_layout parcel_data truck_dims ∧
      guillotine_3d_packing parcel_data truck_dims =
        generate_mock_3d_layout parcel_data truck_dims :=
  ⟨rfl, rfl, rfl, rfl⟩

/-- Claim C5: the placement engine (and each of its four aliases) is
deterministic — identical inputs give identical layouts. -/
theorem C5_engine_deterministic (p₁ p₂ : List Parcel) (t₁ t₂ : ℚ × ℚ × ℚ)
    (hp : p₁ = p₂) (ht : t₁ = t₂) :
    generate_mock_3d_layout p₁ t₁ = generate_mock_3d_layout p₂ t₂ ∧
      extreme_point_packing p₁ t₁ = extreme_point_packing p₂ t₂ ∧
      layer_based_packing p₁ t₁ = layer_based_packing p₂ t₂ ∧
      skyline_3d_packing p₁ t₁ = skyline_3d_packing p₂ t₂ ∧
      guillotine_3d_packing p₁ t₁ = guillotine_3d_packing p₂ t₂ := by
  subst hp; subst ht; exact ⟨rfl, rfl, rfl, rfl, rfl⟩

/-- Witness for C5 at a concrete input. -/
theorem C5_engine_deterministic_witness :
    generate_mock_3d_layout [⟨1, 1, 1, 1⟩] (2, 2, 2) =
        generate_mock_3d_layout [⟨1, 1, 1, 1⟩] (2, 2, 2) ∧
      extreme_point_packing [⟨1, 1, 1, 1⟩] (2, 2, 2) =
        extreme_point_packing [⟨1, 1, 1, 1⟩] (2, 2, 2) ∧
      layer_based_packing [⟨1, 1, 1, 1⟩] (2, 2, 2) =
        layer_based_packing [⟨1, 1, 1, 1⟩] (2, 2, 2) ∧
      skyline_3d_packing [⟨1, 1, 1, 1⟩] (2, 2, 2) =
        skyline_3d_packing [⟨1, 1, 1, 1⟩] (2, 2, 2) ∧
      guillotine_3d_packing [⟨1, 1, 1, 1⟩] (2, 2, 2) =
        guillotine_3d_packing [⟨1, 1, 1, 1⟩] (2, 2, 2) :=
  C5_engine_deterministic [⟨1, 1, 1, 1⟩] [⟨1, 1, 1, 1⟩] (2, 2, 2) (2, 2, 2) rfl rfl

theorem layoutAux_inside (maxX maxY maxZ : ℚ) :
    ∀ (rest : List Parcel) (idx : ℕ) (xc yc zc : ℚ),
      0 ≤ xc → 0 ≤ yc → 0 ≤ zc →
      (∀ p ∈ rest, 0 < p.length ∧ 0 < p.width ∧ 0 < p.height) →
      (∀ p ∈ rest, p.length ≤ maxX ∧ p.width ≤ maxY) →
      ∀ pl ∈ layoutAux maxX maxY maxZ rest idx xc yc zc,
        placementInside (maxX, maxY, maxZ) pl := by
  intro rest
  induction rest with
  | nil =>
    intro idx xc yc zc _ _ _ _ _ pl hpl
    simp [layoutAux] at hpl
  | cons p rest ih =>
    intro idx xc yc zc hxc hyc hzc hpos hfit pl hpl
    obtain ⟨hl, hw, hh⟩ := hpos p (List.mem_cons_self p rest)
    obtain ⟨hfl, hfw⟩ := hfit p (List.mem_cons_self p rest)
    have hsp : (0 : ℚ) < spacing := by norm_num [spacing]
    simp only [layoutAux] at hpl
    set yc1 : ℚ := if xc + p.length > maxX then yc + p.width + spacing else yc with hyc1
    set xc1 : ℚ := if xc + p.length > maxX then 0 else xc with hxc1
    set yc2 : ℚ := if yc1 + p.width > maxY then 0 else yc1 with hyc2
    set zc1 : ℚ := if yc1 + p.width > maxY then zc + p.height + spacing else zc with hzc1
    have hxc1n : 0 ≤ xc1 := by rw [hxc1]; split <;> linarith
    have hyc1n : 0 ≤ yc1 := by rw [hyc1]; split <;> linarith
    have hyc2n : 0 ≤ yc2 := by rw [hyc2]; split <;> linarith
    have hzc1n : 0 ≤ zc1 := by rw [hzc1]; split <;> linarith
    have hxin : xc1 + p.length ≤ maxX := by rw [hxc1]; split <;> linarith
    have hyin : yc2 + p.width ≤ maxY := by rw [hyc2]; split <;> linarith
    by_cases hz : zc1 + p.height > maxZ
    · rw [if_pos hz] at hpl
      exact absurd hpl (List.not_mem_nil pl)
    · rw [if_neg hz] at hpl
      rcases List.mem_cons.1 hpl with rfl | hm
      · exact ⟨hxc1n, hyc2n, hzc1n, hxin, hyin, not_lt.1 hz⟩
      · exact ih (idx + 1) (xc1 + p.length + spacing) yc2 zc1 (by linarith) hyc2n hzc1n
          (fun q hq => hpos q (List.mem_cons_of_mem p hq))
          (fun q hq => hfit q (List.mem_cons_of_mem p hq)) pl hm

/-- Claim C1 as stated fails on the code: at this concrete
input — two parcels of footprints 2×5 and 2×1 in a 2×10×10 container —
the engine places the second parcel at (0, 1.1, 0) inside the first
parcel's box [0,2]×[0,5]×[0,1], a positive-volume intersection.  The
spec's disjointness invariant is the stated intent (its §9 notes the
mock breaks the very invariant it should guarantee), so this is a bug of
the code, not of the claim. -/
theorem C1_disjointness_fails_on_code :
    generate_mock_3d_layout [⟨1, 2, 5, 1⟩, ⟨1, 2, 1, 1⟩] (2, 10, 10) =
        [⟨1, 0, 0, 0, 2, 5, 1⟩, ⟨2, 0, 1.1, 0, 2, 1, 1⟩] ∧
      ¬ disjointLayout [⟨1, 2, 5, 1⟩, ⟨1, 2, 1, 1⟩] (2, 10, 10) := by
  constructor
  · simp only [generate_mock_3d_layout, layoutAux, spacing]
    norm_num
  · simp only [disjointLayout, generate_mock_3d_layout, layoutAux, spacing, boxesOverlap]
    norm_num

/-- Claim C2 as stated is false: a parcel of length 3 in a truck of
length 2 (positive dimensions throughout) is placed at x = 0 with
x + length = 3 > 2, outside the container. -/
theorem C2_containment_counterexample :
    (∀ p ∈ [(⟨1, 3, 1, 1⟩ : Parcel)], 0 < p.length ∧ 0 < p.width ∧ 0 < p.height) ∧
      ((0 : ℚ) < 2 ∧ (0 : ℚ) < 10 ∧ (0 : ℚ) < 10) ∧
      ¬ layoutInside [⟨1, 3, 1, 1⟩] (2, 10, 10) := by
  refine ⟨?_, by norm_num, ?_⟩
  · intro p hp
    rw [List.mem_singleton] at hp
    subst hp
    refine ⟨by norm_num, by norm_num, by norm_num⟩
  · simp only [layoutInside, generate_mock_3d_layout, layoutAux, spacing, placementInside]
    norm_num

/-- Claim C2 (amended): if additionally every parcel individually fits the
truck's footprint (length ≤ max_x and width ≤ max_y), then every placement
returned by `generate_mock_3d_layout` lies entirely within the container on
all three axes. -/
theorem C2_containment_amended (parcels : List Parcel) (dims : ℚ × ℚ × ℚ)
    (hpos : ∀ p ∈ parcels, 0 < p.length ∧ 0 < p.width ∧ 0 < p.height)
    (_hdims : 0 < dims.1 ∧ 0 < dims.2.1 ∧ 0 < dims.2.2)
    (hfit : ∀ p ∈ parcels, p.length ≤ dims.1 ∧ p.width ≤ dims.2.1) :
    layoutInside parcels dims := fun pl hpl =>
  layoutAux_inside dims.1 dims.2.1 dims.2.2 parcels 0 0 0 0 le_rfl le_rfl le_rfl
    hpos hfit pl hpl

/-- Witness for the amended C2 at a concrete input. -/
theorem C2_containment_amended_witness :
    layoutInside [⟨1, 1, 1, 1⟩] (2, 2, 2) :=
  C2_containment_amended [⟨1, 1, 1, 1⟩] (2, 2, 2)
    (by
      intro p hp
      rw [List.mem_singleton] at hp
      subst hp
      refine ⟨by norm_num, by norm_num, by norm_num⟩)
    (by norm_num)
    (by
      intro p hp
      rw [List.mem_singleton] at hp
      subst hp
      refine ⟨by norm_num, by norm_num⟩)

/-- Claim C4 fails on the code: for a 1×1×1 parcel and a truck of height
0.5 the engine breaks immediately and returns the empty layout, although
one parcel was supplied; the returned list is the engine's entire output,
so the dropped parcel is not reported anywhere. -/
theorem C4_unplaced_parcel_silently_dropped :
    generate_mock_3d_layout [⟨1, 1, 1, 1⟩] (2, 2, 0.5) = [] ∧
      ([(⟨1, 1, 1, 1⟩ : Parcel)]).length = 1 := by
  constructor
  · simp only [generate_mock_3d_layout, layoutAux, spacing]
    norm_num
  · rfl

/-- Claim C8 fails on the code: the Run 3D Packing handler has no
emptiness guard — on an empty parcel list it proceeds and produces a
(empty) layout for the Small van row instead of rejecting the run. -/
theorem C8_empty_input_not_rejected :
    run_3d_packing extreme_point_packing []
        ⟨"Small van", 1.5, 1.2, 1.1, 360, 1.8, 100⟩ = [] ∧
      run_3d_packing layer_based_packing []
        ⟨"Small van", 1.5, 1.2, 1.1, 360, 1.8, 100⟩ = [] ∧
      run_3d_packing skyline_3d_packing []
        ⟨"Small van", 1.5, 1.2, 1.1, 360, 1.8, 100⟩ = [] ∧
      run_3d_packing guillotine_3d_packing []
        ⟨"Small van", 1.5, 1.2, 1.1, 360, 1.8, 100⟩ = [] :=
  ⟨rfl, rfl, rfl, rfl⟩

theorem layoutAux_length_le (maxX maxY maxZ : ℚ) :
    ∀ (rest : List Parcel) (idx : ℕ) (xc yc zc : ℚ),
      (layoutAux maxX maxY maxZ rest idx xc yc zc).length ≤ rest.length := by
  intro rest
  induction rest with
  | nil =>
    intro idx xc yc zc
    simp [layoutAux]
  | cons p rest ih =>
    intro idx xc yc zc
    simp only [layoutAux]
    set yc1 : ℚ := if xc + p.length > maxX then yc + p.width + spacing else yc with hyc1
    set xc1 : ℚ := if xc + p.length > maxX then 0 else xc with hxc1
    set yc2 : ℚ := if yc1 + p.width > maxY then 0 else yc1 with hyc2
    set zc1 : ℚ := if yc1 + p.width > maxY then zc + p.height + spacing else zc with hzc1
    by_cases hz : zc1 + p.height > maxZ
    · rw [if_pos hz]
      simp
    · rw [if_neg hz]
      simpa [List.length_cons] using
        Nat.succ_le_succ (ih (idx + 1) (xc1 + p.length + spacing) yc2 zc1)

theorem layoutAux_map_id (maxX maxY maxZ : ℚ) :
    ∀ (rest : List Parcel) (idx : ℕ) (xc yc zc : ℚ),
      (layoutAux maxX maxY maxZ rest idx xc yc zc).map Placement.id =
        List.range' (idx + 1) (layoutAux maxX maxY maxZ rest idx xc yc zc).length := by
  intro rest
  induction rest with
  | nil =>
    intro idx xc yc zc
    simp [layoutAux]
  | cons p rest ih =>
    intro idx xc yc zc
    simp only [layoutAux]
    set yc1 : ℚ := if xc + p.length > maxX then yc + p.width + spacing else yc with hyc1
    set xc1 : ℚ := if xc + p.length > maxX then 0 else xc with hxc1
    set yc2 : ℚ := if yc1 + p.width > maxY then 0 else yc1 with hyc2
    set zc1 : ℚ := if yc1 + p.width > maxY then zc + p.height + spacing else zc with hzc1
    by_cases hz : zc1 + p.height > maxZ
    · rw [if_pos hz]
      simp
    · rw [if_neg hz]
      simp only [List.map_cons, List.length_cons, List.range'_succ]
      exact congrArg (List.cons (idx + 1))
        (ih (idx + 1) (xc1 + p.length + spacing) yc2 zc1)

theorem layoutAux_get_corr (maxX maxY maxZ : ℚ) :
    ∀ (rest : List Parcel) (idx : ℕ) (xc yc zc : ℚ) (j : ℕ) (pl : Placement),
      (layoutAux maxX maxY maxZ rest idx xc yc zc).get? j = some pl →
      ∃ p, rest.get? j = some p ∧ pl.length = p.length ∧ pl.width = p.width ∧
        pl.height = p.height := by
  intro rest
  induction rest with
  | nil =>
    intro idx xc yc zc j pl h
    simp [layoutAux] at h
  | cons p rest ih =>
    intro idx xc yc zc j pl h
    simp only [layoutAux] at h
    set yc1 : ℚ := if xc + p.length > maxX then yc + p.width + spacing else yc with hyc1
    set xc1 : ℚ := if xc + p.length > maxX then 0 else xc with hxc1
    set yc2 : ℚ := if yc1 + p.width > maxY then 0 else yc1 with hyc2
    set zc1 : ℚ := if yc1 + p.width > maxY then zc + p.height + spacing else zc with hzc1
    by_cases hz : zc1 + p.height > maxZ
    · rw [if_pos hz] at h
      simp at h
    · rw [if_neg hz] at h
      cases j with
      | zero =>
        rw [List.get?_cons_zero] at h
        obtain rfl := Option.some.inj h
        exact ⟨p, rfl, rfl, rfl, rfl⟩
      | succ j =>
        rw [List.get?_cons_succ] at h
        obtain ⟨q, hq, h1, h2, h3⟩ :=
          ih (idx + 1) (xc1 + p.length + spacing) yc2 zc1 j pl h
        exact ⟨q, by simpa using hq, h1, h2, h3⟩

/-- Claim C7: parcels are never rotated — whenever the engine's layout has
an entry at position `j`, the input parcel list has an entry at position
`j` and the placement's extents (length, width, height) equal that
parcel's (length, width, height), axes matched one-to-one. -/
theorem C7_extents_never_rotated (parcels : List Parcel) (dims : ℚ × ℚ × ℚ)
    (j : ℕ) (pl : Placement)
    (h : (generate_mock_3d_layout parcels dims).get? j = some pl) :
    ∃ p, parcels.get? j = some p ∧ pl.length = p.length ∧ pl.width = p.width ∧
      pl.height = p.height :=
  layoutAux_get_corr dims.1 dims.2.1 dims.2.2 parcels 0 0 0 0 j pl h

/-- Witness for C7 at the concrete input of a unit cube in a 2×2×2
container. -/
theorem C7_extents_never_rotated_witness :
    ∃ p, ([(⟨1, 1, 1, 1⟩ : Parcel)]).get? 0 = some p ∧
      (⟨1, 0, 0, 0, 1, 1, 1⟩ : Placement).length = p.length ∧
      (⟨1, 0, 0, 0, 1, 1, 1⟩ : Placement).width = p.width ∧
      (⟨1, 0, 0, 0, 1, 1, 1⟩ : Placement).height = p.height :=
  C7_extents_never_rotated [⟨1, 1, 1, 1⟩] (2, 2, 2) 0 ⟨1, 0, 0, 0, 1, 1, 1⟩
    (by rw [layout_unit_cube_eval]; rfl)

/-- Claim C10: the returned layout is an order-preserving initial run of
the input — it is never longer than the input, its ids are consecutively
1, 2, …, k in input order, and each entry's extents are those of the
input parcel at the same position; hence once one parcel fails the height
check, that parcel and all later parcels are excluded. -/
theorem C10_layout_is_initial_input_run (parcels : List Parcel)
    (dims : ℚ × ℚ × ℚ) :
    (generate_mock_3d_layout parcels dims).length ≤ parcels.length ∧
      (generate_mock_3d_layout parcels dims).map Placement.id =
        List.range' 1 (generate_mock_3d_layout parcels dims).length ∧
      ∀ j pl, (generate_mock_3d_layout parcels dims).get? j = some pl →
        ∃ p, parcels.get? j = some p ∧ pl.length = p.length ∧
          pl.width = p.width ∧ pl.height = p.height :=
  ⟨layoutAux_length_le dims.1 dims.2.1 dims.2.2 parcels 0 0 0 0,
   layoutAux_map_id dims.1 dims.2.1 dims.2.2 parcels 0 0 0 0,
   fun j pl h => layoutAux_get_corr dims.1 dims.2.1 dims.2.2 parcels 0 0 0 0 j pl h⟩

/-- Witness for C10 at a concrete input. -/
theorem C10_layout_is_initial_input_run_witness :
    (generate_mock_3d_layout [⟨1, 1, 1, 1⟩] (2, 2, 2)).map Placement.id =
      List.range' 1 (generate_mock_3d_layout [⟨1, 1, 1, 1⟩] (2, 2, 2)).length :=
  (C10_layout_is_initial_input_run [⟨1, 1, 1, 1⟩] (2, 2, 2)).2.1

/-- Claim C6 (Scenario A): for the parcel {weight 50, 1×1×1}, the
cheapest feasible catalog row is the Small van (1.5 × 1.2 × 1.1, cost
100); the modelled single-parcel run uses exactly one instance of it at
total cost 100, and the engine of the source places the parcel at the
origin with extents 1×1×1. -/
theorem C6_scenario_A :
    solveSingleParcel ⟨50, 1, 1, 1⟩ vehicle_types =
      some (⟨"Small van", 1.5, 1.2, 1.1, 360, 1.8, 100⟩, 1, 100,
        [⟨1, 0, 0, 0, 1, 1, 1⟩]) := by
  simp only [solveSingleParcel, cheapestFeasible, vehicle_types, feasible, parcelVolume,
    generate_mock_3d_layout, layoutAux, spacing]
  norm_num

end Truck3D
